import Mathlib

/-!
Verification of the clinical-trials search backend: a shallow embedding of the
query builder (backend/query_builder.py), the entity-extraction cache
(backend/openai_service.py) and the search / find-similar request orchestration
(backend/routers/search.py), together with theorems about strategy selection,
query shape, cache eviction and expiry, pagination arithmetic and error
mapping.
-/

/-- Shallow embedding of one Elasticsearch query clause as assembled by the
query builder: exact-match term filters, match and multi-match text clauses
(with optional fuzziness and boost, absent keys modelled as none), nested
clauses, inner bool-should groups, and the more-like-this similarity clause.
Field strings keep the caret boost notation of the source literals. -/
inductive Clause where
  | term (field value : String)
  | matchQ (field query : String) (fuzziness : Option String) (boost : Option ℚ)
  | multiMatch (query : String) (fields : List String) (type_ : Option String)
      (fuzziness : Option String) (boost : Option ℚ)
  | nested (path : String) (query : Clause)
  | boolShould (should : List Clause)
  | moreLikeThis (fields : List String) (like_index like_id : String)
      (min_term_freq min_doc_freq max_query_terms : Nat)

/-- Top level of the compiled query: a bool query with must / should / filter
clause lists (an absent key is the empty list) and an optional
minimum-should-match value, a single non-bool clause, or match-all. -/
inductive QueryBody where
  | boolQ (must should filter : List Clause) (minimum_should_match : Option Nat)
  | single (clause : Clause)
  | matchAll

/-- Hard filter clauses of a compiled query body. -/
def QueryBody.filters : QueryBody → List Clause
  | .boolQ _ _ f _ => f
  | _ => []

/-- Should (scored) clauses of a compiled query body. -/
def QueryBody.shoulds : QueryBody → List Clause
  | .boolQ _ s _ _ => s
  | _ => []

/-- Must clauses of a compiled query body. -/
def QueryBody.musts : QueryBody → List Clause
  | .boolQ m _ _ _ => m
  | _ => []

/-- Minimum-should-match value of a compiled query body, none when the key is
absent or the body is not a bool query. -/
def QueryBody.minShouldMatch : QueryBody → Option Nat
  | .boolQ _ _ _ m => m
  | _ => none

/-- A complete compiled Elasticsearch request body: size, from offset, the
query, the source-projection exclusion list, and the track-scores flag
(none when the key is absent from the built dictionary). -/
structure ESQuery where
  size : Nat
  from_ : Nat
  query : QueryBody
  source_excludes : List String
  track_scores : Option Bool

/-- Entities extracted from a natural-language query (models.ExtractedEntities).
Confidence is modelled as a rational in place of the float. -/
structure ExtractedEntities where
  phase : Option String := none
  conditions : Option (List String) := none
  interventions : Option (List String) := none
  status : Option String := none
  study_type : Option String := none
  sponsors : Option (List String) := none
  locations : Option (List String) := none
  keywords : Option (List String) := none
  original_query : String
  confidence : Option ℚ := none
deriving DecidableEq, Repr

/-- An optional list field seen as the list it iterates over: none and an
empty list both contribute no clauses. -/
def optList (o : Option (List String)) : List String := o.getD []

/-- Filter clauses of the intelligent query: term filters for phase, status
and study type when the field is truthy (present and nonempty). -/
def intelligentFilterClauses (entities : ExtractedEntities) : List Clause :=
  (match entities.phase with
    | some p => if p = "" then [] else [Clause.term "phase" p]
    | none => []) ++
  (match entities.status with
    | some s => if s = "" then [] else [Clause.term "overall_status" s]
    | none => []) ++
  (match entities.study_type with
    | some t => if t = "" then [] else [Clause.term "study_type" t]
    | none => [])

/-- Should clauses of the intelligent query: per-condition, per-intervention,
per-sponsor, per-location and per-keyword scored clauses, with the full-text
fallback over the original query when no scored clause was produced. -/
def intelligentShouldClauses (entities : ExtractedEntities) : List Clause :=
  let clauses :=
    (optList entities.conditions).flatMap (fun condition =>
      [ Clause.nested "conditions" (.matchQ "conditions.name" condition none (some 3)),
        Clause.multiMatch condition
          ["brief_title^2", "official_title^1.5", "brief_summaries_description"]
          none none (some (3/2)) ]) ++
    (optList entities.interventions).flatMap (fun intervention =>
      [ Clause.nested "interventions" (.matchQ "interventions.name" intervention none (some 3)),
        Clause.nested "interventions"
          (.matchQ "interventions.description" intervention none (some (3/2))) ]) ++
    (optList entities.sponsors).flatMap (fun sponsor =>
      [ Clause.nested "sponsors" (.matchQ "sponsors.name" sponsor none (some (5/2))),
        Clause.matchQ "source" sponsor none (some 2) ]) ++
    (optList entities.locations).map (fun location =>
      Clause.nested "facilities" (.boolShould
        [ .matchQ "facilities.city" location none (some 3),
          .matchQ "facilities.state" location none (some (5/2)),
          .matchQ "facilities.country" location none (some 2) ])) ++
    (optList entities.keywords).map (fun keyword =>
      Clause.multiMatch keyword
        ["brief_title^2", "official_title^1.5", "brief_summaries_description",
         "detailed_description"]
        none none (some 1))
  if clauses.isEmpty ∧ entities.original_query ≠ "" then
    [ Clause.multiMatch entities.original_query
        ["brief_title^3", "official_title^2", "brief_summaries_description^1.5",
         "detailed_description"]
        (some "best_fields") none (some 2) ]
  else clauses

/-- QueryBuilder.build_intelligent_query: filters for exact entity constraints,
should clauses for relevance, minimum-should-match 1 only when there are
should clauses and no filters, match-all when the bool query would be empty. -/
def build_intelligent_query (entities : ExtractedEntities) (size from_ : Nat) : ESQuery :=
  let must_clauses : List Clause := []
  let should_clauses := intelligentShouldClauses entities
  let filter_clauses := intelligentFilterClauses entities
  { size := size
    from_ := from_
    query :=
      if must_clauses.isEmpty ∧ should_clauses.isEmpty ∧ filter_clauses.isEmpty then
        QueryBody.matchAll
      else
        QueryBody.boolQ must_clauses should_clauses filter_clauses
          (if ¬ should_clauses.isEmpty ∧ filter_clauses.isEmpty then some 1 else none)
    source_excludes := ["detailed_description"]
    track_scores := some true }

/-- QueryBuilder.build_basic_query: a single fuzzy best-fields multi-match over
the standard text fields, no bool structure. -/
def build_basic_query (query_text : String) (size from_ : Nat) : ESQuery :=
  { size := size
    from_ := from_
    query := .single (.multiMatch query_text
      ["brief_title^3", "official_title^2", "brief_summaries_description^1.5",
       "detailed_description", "conditions.name^2", "interventions.name^2", "keywords"]
      (some "best_fields") (some "AUTO") none)
    source_excludes := ["detailed_description"]
    track_scores := some true }

/-- Should clauses of the hybrid query: the six-clause fuzzy fan-out over all
field groups, plus extra sponsor and location clauses when entities were
partially extracted. -/
def hybridShouldClauses (query_text : String) (entities : Option ExtractedEntities) :
    List Clause :=
  [ Clause.multiMatch query_text
      ["brief_title^3", "official_title^2", "brief_summaries_description^1.5",
       "detailed_description", "keywords"]
      (some "best_fields") (some "AUTO") (some 2),
    Clause.nested "conditions" (.matchQ "conditions.name" query_text (some "AUTO") (some (5/2))),
    Clause.nested "interventions" (.multiMatch query_text
      ["interventions.name^2", "interventions.description"] none (some "AUTO") (some 2)),
    Clause.nested "sponsors" (.matchQ "sponsors.name" query_text (some "AUTO") (some (5/2))),
    Clause.nested "facilities" (.multiMatch query_text
      ["facilities.city^3", "facilities.state^2.5", "facilities.country^2", "facilities.name"]
      none (some "AUTO") (some 2)),
    Clause.matchQ "source" query_text (some "AUTO") (some (3/2)) ] ++
  (match entities with
    | some e =>
        (optList e.sponsors).map (fun sponsor =>
          Clause.nested "sponsors" (.matchQ "sponsors.name" sponsor none (some 3))) ++
        (optList e.locations).map (fun location =>
          Clause.nested "facilities" (.boolShould
            [ .matchQ "facilities.city" location none (some (7/2)),
              .matchQ "facilities.state" location none (some 3),
              .matchQ "facilities.country" location none (some (5/2)) ]))
    | none => [])

/-- QueryBuilder.build_hybrid_query: an all-should bool query with
minimum-should-match 1 over the wide fuzzy fan-out. -/
def build_hybrid_query (query_text : String) (entities : Option ExtractedEntities)
    (size from_ : Nat) : ESQuery :=
  { size := size
    from_ := from_
    query := .boolQ [] (hybridShouldClauses query_text entities) [] (some 1)
    source_excludes := ["detailed_description"]
    track_scores := some true }

/-- QueryBuilder.build_similar_trials_query: a more-like-this query against the
reference document, with min term frequency 1, min doc frequency 2 and at most
25 query terms; no track-scores key is set. -/
def build_similar_trials_query (nct_id : String) (size from_ : Nat) : ESQuery :=
  { size := size
    from_ := from_
    query := .single (.moreLikeThis
      ["brief_title", "brief_summaries_description", "conditions.name", "interventions.name"]
      "clinical_trials" nct_id 1 2 25)
    source_excludes := ["detailed_description"]
    track_scores := none }

/-- TTL of an entity cache entry in seconds (OpenAIService._cache_ttl). -/
def cache_ttl : ℚ := 600

/-- Maximum number of live cache entries (OpenAIService._cache_max_size). -/
def cache_max_size : Nat := 1000

/-- The keys of an insertion-ordered dictionary, in insertion order. -/
def dictKeys {α β : Type} (cache : List (α × β)) : List α := cache.map Prod.fst

/-- Insertion-ordered dictionary assignment: an existing key is overwritten in
place keeping its position, a new key is appended at the end. -/
def dictSet {α β : Type} [DecidableEq α] (cache : List (α × β)) (key : α) (value : β) :
    List (α × β) :=
  if key ∈ dictKeys cache then
    cache.map (fun entry => if entry.1 = key then (key, value) else entry)
  else cache ++ [(key, value)]

/-- Insertion-ordered dictionary deletion of the entry holding the key. -/
def dictDelete {α β : Type} [DecidableEq α] (cache : List (α × β)) (key : α) :
    List (α × β) :=
  cache.eraseP (fun entry => decide (entry.1 = key))

/-- OpenAIService._get_from_cache, over an insertion-ordered store of
(key, entities, creation timestamp) entries: a hit younger than the TTL
returns the stored entities; an entry at or past the TTL is deleted and the
call behaves as a miss.  Returns the result together with the updated store. -/
def get_from_cache {α β : Type} [DecidableEq α] (cache : List (α × β × ℚ)) (key : α)
    (now : ℚ) : Option β × List (α × β × ℚ) :=
  match cache.find? (fun entry => decide (entry.1 = key)) with
  | some entry =>
      if now - entry.2.2 < cache_ttl then (some entry.2.1, cache)
      else (none, dictDelete cache key)
  | none => (none, cache)

/-- OpenAIService._add_to_cache: when the store already holds at least the
maximum number of entries, the first-inserted entry is deleted, then the new
value is stored under the key with the current timestamp. -/
def add_to_cache {α β : Type} [DecidableEq α] (cache : List (α × β × ℚ)) (key : α)
    (entities : β) (now : ℚ) : List (α × β × ℚ) :=
  let cache' := if cache_max_size ≤ cache.length then cache.drop 1 else cache
  dictSet cache' key (entities, now)

/-- An HTTP error outcome (FastAPI HTTPException): status code and detail. -/
structure HTTPError where
  status_code : Nat
  detail : String
deriving DecidableEq, Repr

/-- Failure kinds raised by the index collaborator on a search submission:
a malformed-query error (elasticsearch.RequestError), a connectivity error
(elasticsearch.ConnectionError), or any other exception. -/
inductive ESFailure where
  | requestError (message : String)
  | connectionError (message : String)
  | other (message : String)
deriving DecidableEq, Repr

/-- The source fields of one index hit used by the summary mapping. -/
structure ESSource where
  brief_title : Option String := none
  official_title : Option String := none
  phase : Option String := none
  overall_status : Option String := none
  study_type : Option String := none
  brief_summaries_description : Option String := none
  conditions : Option (List String) := none
  interventions : Option (List String) := none
  enrollment : Option Nat := none
  start_date : Option String := none
  completion_date : Option String := none
deriving DecidableEq, Repr

/-- One hit of an index response: document id, source projection and score. -/
structure ESHit where
  id : String
  source : ESSource := {}
  score : Option ℚ := none
deriving DecidableEq, Repr

/-- An index search response: total match count and returned hits. -/
structure ESResponse where
  total : Nat
  hits : List ESHit := []
deriving DecidableEq, Repr

/-- Summary of one matched trial (models.TrialSummary). -/
structure TrialSummary where
  nct_id : String
  brief_title : String
  official_title : Option String
  phase : Option String
  overall_status : Option String
  study_type : Option String
  brief_summaries_description : Option String
  conditions : Option (List String)
  interventions : Option (List String)
  enrollment : Option Nat
  start_date : Option String
  completion_date : Option String
  score : Option ℚ
deriving DecidableEq, Repr

/-- Mapping of one index hit to a trial summary (routers/search.py step 5). -/
def hitToTrialSummary (hit : ESHit) : TrialSummary :=
  { nct_id := hit.id
    brief_title := hit.source.brief_title.getD "No title"
    official_title := hit.source.official_title
    phase := hit.source.phase
    overall_status := hit.source.overall_status
    study_type := hit.source.study_type
    brief_summaries_description := hit.source.brief_summaries_description
    conditions := hit.source.conditions
    interventions := hit.source.interventions
    enrollment := hit.source.enrollment
    start_date := hit.source.start_date
    completion_date := hit.source.completion_date
    score := hit.score }

/-- A validated search request (models.SearchRequest): pydantic guarantees
page at least 1 and page size between 1 and 100. -/
structure SearchRequest where
  query : String
  page : Nat := 1
  page_size : Nat := 10
  use_ai : Bool := true
deriving DecidableEq, Repr

/-- The search endpoint response (models.SearchResponse, without the
wall-clock took field). -/
structure SearchResponse where
  query : String
  extracted_entities : Option ExtractedEntities
  total_results : Nat
  page : Nat
  page_size : Nat
  total_pages : Nat
  results : List TrialSummary
  used_ai : Bool
  search_type : String
deriving DecidableEq, Repr

/-- Offset computed from the page number: (page - 1) * page_size. -/
def fromOffset (page page_size : Nat) : Nat := (page - 1) * page_size

/-- Total pages computed from the total match count:
(total_results + page_size - 1) integer-divided by page_size. -/
def totalPages (total_results page_size : Nat) : Nat :=
  (total_results + page_size - 1) / page_size

/-- Step 2 of the search endpoint (routers/search.py lines 110-141): pick the
strategy name and compile the matching query from the extraction outcome.  An
absent extraction result (extraction disabled, unavailable or failed) selects
the basic query; extracted entities select the intelligent query when the
confidence (absent treated as 0) is at least 0.8 and the hybrid query
otherwise. -/
def selectStrategyAndQuery (query : String) (page_size from_offset : Nat)
    (extracted_entities : Option ExtractedEntities) : String × ESQuery :=
  match extracted_entities with
  | some entities =>
      if (8 : ℚ)/10 ≤ entities.confidence.getD 0 then
        ("intelligent", build_intelligent_query entities page_size from_offset)
      else
        ("hybrid", build_hybrid_query query (some entities) page_size from_offset)
  | none => ("basic", build_basic_query query page_size from_offset)

/-- The search endpoint (routers/search.py search_trials) after validation and
entity extraction, with the index collaborator passed as a function: computes
the offset, selects and compiles the query, submits it, maps collaborator
failures to HTTP errors (malformed query to 400, connectivity to 503,
anything else caught by the outer handler to 500) and otherwise assembles the
paginated response. -/
def searchTrials (request : SearchRequest) (extracted_entities : Option ExtractedEntities)
    (es_search : ESQuery → Except ESFailure ESResponse) : Except HTTPError SearchResponse :=
  let from_offset := fromOffset request.page request.page_size
  let strategy := selectStrategyAndQuery request.query request.page_size from_offset
    extracted_entities
  match es_search strategy.2 with
  | .error (.requestError message) =>
      .error { status_code := 400, detail := "Invalid search query: " ++ message }
  | .error (.connectionError _) =>
      .error { status_code := 503, detail := "Search service temporarily unavailable" }
  | .error (.other message) =>
      .error { status_code := 500, detail := "Internal search error: " ++ message }
  | .ok es_response =>
      .ok { query := request.query
            extracted_entities := extracted_entities
            total_results := es_response.total
            page := request.page
            page_size := request.page_size
            total_pages := totalPages es_response.total request.page_size
            results := es_response.hits.map hitToTrialSummary
            used_ai := extracted_entities.isSome
            search_type := strategy.1 }

/-- The message carried by an index collaborator failure. -/
def ESFailure.message : ESFailure → String
  | .requestError m => m
  | .connectionError m => m
  | .other m => m

/-- The find-similar endpoint (routers/search.py find_similar_trials) with the
reference-existence check and the index collaborator passed as inputs: a
missing reference yields 404 before the similarity query is built or
submitted; otherwise the more-like-this query runs and the response always
reports strategy "similar" with used_ai false.  Collaborator failures are
caught only by the generic handler (500). -/
def findSimilarTrials (nct_id : String) (page page_size : Nat) (reference_exists : Bool)
    (es_search : ESQuery → Except ESFailure ESResponse) : Except HTTPError SearchResponse :=
  let from_offset := fromOffset page page_size
  if reference_exists then
    match es_search (build_similar_trials_query nct_id page_size from_offset) with
    | .error failure =>
        .error { status_code := 500
                 detail := "Error finding similar trials: " ++ failure.message }
    | .ok es_response =>
        .ok { query := "Similar to " ++ nct_id
              extracted_entities := none
              total_results := es_response.total
              page := page
              page_size := page_size
              total_pages := totalPages es_response.total page_size
              results := es_response.hits.map hitToTrialSummary
              used_ai := false
              search_type := "similar" }
  else
    .error { status_code := 404, detail := "Reference trial " ++ nct_id ++ " not found" }

/-- Stub index collaborator returning an empty successful response. -/
def stubES : ESQuery → Except ESFailure ESResponse := fun _ => .ok { total := 0 }

/-- Entities carrying only the original query and a given confidence. -/
def entitiesWithConfidence (confidence : Option ℚ) : ExtractedEntities :=
  { original_query := "q", confidence := confidence }

/-- Entities carrying a phase constraint only. -/
def entitiesWithPhase : ExtractedEntities :=
  { phase := some "PHASE2", original_query := "q" }

/-- Entities carrying one condition only. -/
def entitiesWithCondition : ExtractedEntities :=
  { conditions := some ["asthma"], original_query := "q" }

/-- The response the stub collaborator produces for a find-similar call. -/
def similarStubResponse : SearchResponse :=
  { query := "Similar to NCT00000001"
    extracted_entities := none
    total_results := 0
    page := 1
    page_size := 5
    total_pages := 0
    results := []
    used_ai := false
    search_type := "similar" }

/-- A cache at full capacity with one thousand distinct numeric keys. -/
def fullCache : List (Nat × Unit × ℚ) := (List.range 1000).map (fun i => (i, (), 0))

/-- Claim C1: strategy selection is a total deterministic function of the
extraction outcome and confidence: no entities select the basic strategy and
query; entities with confidence at least 0.8 select the intelligent strategy
and query; entities with confidence below 0.8, an absent confidence treated
as 0, select the hybrid strategy and query. -/
theorem strategy_selection_cases (query : String) (page_size from_offset : Nat)
    (e : ExtractedEntities) :
    selectStrategyAndQuery query page_size from_offset none =
      ("basic", build_basic_query query page_size from_offset) ∧
    ((8 : ℚ)/10 ≤ e.confidence.getD 0 →
      selectStrategyAndQuery query page_size from_offset (some e) =
        ("intelligent", build_intelligent_query e page_size from_offset)) ∧
    (e.confidence.getD 0 < (8 : ℚ)/10 →
      selectStrategyAndQuery query page_size from_offset (some e) =
        ("hybrid", build_hybrid_query query (some e) page_size from_offset)) ∧
    (e.confidence = none →
      selectStrategyAndQuery query page_size from_offset (some e) =
        ("hybrid", build_hybrid_query query (some e) page_size from_offset)) := by
  refine ⟨rfl, fun h => ?_, fun h => ?_, fun h => ?_⟩
  · simp only [selectStrategyAndQuery]
    rw [if_pos h]
  · simp only [selectStrategyAndQuery]
    rw [if_neg (not_le.mpr h)]
  · simp only [selectStrategyAndQuery]
    rw [if_neg (by rw [h]; norm_num)]

/-- Witness for C1 at confidence 0.8, 0.79999 and absent entities. -/
theorem strategy_selection_cases_witness :
    (selectStrategyAndQuery "q" 10 0 (some (entitiesWithConfidence (some (8/10))))).1 =
      "intelligent" ∧
    (selectStrategyAndQuery "q" 10 0
      (some (entitiesWithConfidence (some (79999/100000))))).1 = "hybrid" ∧
    (selectStrategyAndQuery "q" 10 0 none).1 = "basic" := by
  refine ⟨?_, ?_, ?_⟩
  · rw [(strategy_selection_cases "q" 10 0 (entitiesWithConfidence (some (8/10)))).2.1
      (by norm_num [entitiesWithConfidence])]
  · rw [(strategy_selection_cases "q" 10 0
      (entitiesWithConfidence (some (79999/100000)))).2.2.1
      (by norm_num [entitiesWithConfidence])]
  · rw [(strategy_selection_cases "q" 10 0 (entitiesWithConfidence none)).1]

/-- Claim C2: the compiled intelligent query sets minimum-should-match 1
exactly when it has no hard filter clause and at least one should clause;
with any hard filter present the should clauses carry no minimum-match
requirement. -/
theorem intelligent_minimum_should_match (entities : ExtractedEntities)
    (size from_ : Nat) :
    ((build_intelligent_query entities size from_).query.minShouldMatch = some 1 ↔
      ((build_intelligent_query entities size from_).query.filters = [] ∧
        (build_intelligent_query entities size from_).query.shoulds ≠ [])) ∧
    ((build_intelligent_query entities size from_).query.filters ≠ [] →
      (build_intelligent_query entities size from_).query.minShouldMatch = none) := by
  rcases hs : intelligentShouldClauses entities with _ | ⟨c, cs⟩ <;>
    rcases hf : intelligentFilterClauses entities with _ | ⟨f, fs⟩ <;>
      simp [build_intelligent_query, hs, hf, QueryBody.minShouldMatch, QueryBody.filters,
        QueryBody.shoulds]

/-- Witness for C2: a phase filter suppresses minimum-should-match; a pure
condition query requires one should clause to match. -/
theorem intelligent_minimum_should_match_witness :
    (build_intelligent_query entitiesWithPhase 10 0).query.minShouldMatch = none ∧
    (build_intelligent_query entitiesWithCondition 10 0).query.minShouldMatch = some 1 := by
  constructor
  · exact (intelligent_minimum_should_match entitiesWithPhase 10 0).2 (by
      simp [entitiesWithPhase, build_intelligent_query, intelligentFilterClauses,
        intelligentShouldClauses, optList, QueryBody.filters])
  · exact (intelligent_minimum_should_match entitiesWithCondition 10 0).1.2 ⟨by
      simp [entitiesWithCondition, build_intelligent_query, intelligentFilterClauses,
        intelligentShouldClauses, optList, QueryBody.filters], by
      simp [entitiesWithCondition, build_intelligent_query, intelligentFilterClauses,
        intelligentShouldClauses, optList, QueryBody.shoulds]⟩

/-- Claim C5 (amended): the compiled hybrid query has no hard filter and no
must clause, a nonempty should list and minimum-should-match 1; the compiled
basic query has no bool structure at all, hence no filter, should or must
clause, and sets no minimum-should-match value. -/
theorem hybrid_basic_query_shape (query_text : String)
    (entities : Option ExtractedEntities) (size from_ : Nat) :
    (build_hybrid_query query_text entities size from_).query.filters = [] ∧
    (build_hybrid_query query_text entities size from_).query.musts = [] ∧
    (build_hybrid_query query_text entities size from_).query.shoulds ≠ [] ∧
    (build_hybrid_query query_text entities size from_).query.minShouldMatch = some 1 ∧
    (build_basic_query query_text size from_).query.filters = [] ∧
    (build_basic_query query_text size from_).query.shoulds = [] ∧
    (build_basic_query query_text size from_).query.musts = [] ∧
    (build_basic_query query_text size from_).query.minShouldMatch = none := by
  refine ⟨rfl, rfl, ?_, rfl, rfl, rfl, rfl, rfl⟩
  simp [build_hybrid_query, hybridShouldClauses, QueryBody.shoulds]

/-- Counterexample to C5 as stated: the compiled basic query sets no
minimum-should-match value at all, rather than setting it to 1. -/
theorem basic_query_no_msm_counterexample :
    (build_basic_query "asthma" 10 0).query.minShouldMatch = none := rfl

/-- Witness for C5 at a concrete query text. -/
theorem hybrid_basic_query_shape_witness :
    (build_hybrid_query "asthma" none 10 0).query.minShouldMatch = some 1 ∧
    (build_basic_query "asthma" 10 0).query.filters = [] :=
  ⟨(hybrid_basic_query_shape "asthma" none 10 0).2.2.2.1,
    (hybrid_basic_query_shape "asthma" none 10 0).2.2.2.2.1⟩

/-- Claim C9 (amended): every list-returning compiled query excludes the
detailed_description field from the returned source projection; the
intelligent, basic and hybrid queries request relevance-score tracking, while
the similarity query sets no track-scores key. -/
theorem projection_and_score_tracking (e : ExtractedEntities)
    (query_text nct_id : String) (entities : Option ExtractedEntities)
    (size from_ : Nat) :
    (build_intelligent_query e size from_).source_excludes = ["detailed_description"] ∧
    (build_intelligent_query e size from_).track_scores = some true ∧
    (build_basic_query query_text size from_).source_excludes =
      ["detailed_description"] ∧
    (build_basic_query query_text size from_).track_scores = some true ∧
    (build_hybrid_query query_text entities size from_).source_excludes =
      ["detailed_description"] ∧
    (build_hybrid_query query_text entities size from_).track_scores = some true ∧
    (build_similar_trials_query nct_id size from_).source_excludes =
      ["detailed_description"] ∧
    (build_similar_trials_query nct_id size from_).track_scores = none :=
  ⟨rfl, rfl, rfl, rfl, rfl, rfl, rfl, rfl⟩

/-- Counterexample to C9 as stated: the compiled similarity query does not
request relevance-score tracking; the track-scores key is absent. -/
theorem similar_track_scores_counterexample :
    (build_similar_trials_query "NCT00000001" 5 0).track_scores = none := rfl

/-- Claim C6: every index-collaborator failure on the search submission is
mapped to exactly one of three HTTP outcomes: a malformed-query error to 400,
a connectivity error to 503, and any other failure to 500. -/
theorem search_error_three_way_mapping (request : SearchRequest)
    (extracted_entities : Option ExtractedEntities) (failure : ESFailure) :
    searchTrials request extracted_entities (fun _ => .error failure) =
      .error (match failure with
        | .requestError message =>
            { status_code := 400, detail := "Invalid search query: " ++ message }
        | .connectionError _ =>
            { status_code := 503, detail := "Search service temporarily unavailable" }
        | .other message =>
            { status_code := 500, detail := "Internal search error: " ++ message }) := by
  cases failure <;> rfl

/-- Claim C7: find-similar returns 404 for a missing reference whatever the
index collaborator would answer, and every successful response reports
strategy "similar" with used_ai false. -/
theorem find_similar_not_found_and_metadata (nct_id : String) (page page_size : Nat)
    (es_search : ESQuery → Except ESFailure ESResponse) :
    (findSimilarTrials nct_id page page_size false es_search =
      .error { status_code := 404
               detail := "Reference trial " ++ nct_id ++ " not found" }) ∧
    (∀ response : SearchResponse,
      findSimilarTrials nct_id page page_size true es_search = .ok response →
      response.search_type = "similar" ∧ response.used_ai = false) := by
  refine ⟨rfl, fun response h => ?_⟩
  simp only [findSimilarTrials, if_true] at h
  rcases hes : es_search
      (build_similar_trials_query nct_id page_size (fromOffset page page_size)) with f | r
  · rw [hes] at h
    cases h
  · rw [hes] at h
    cases h
    exact ⟨rfl, rfl⟩

/-- Witness for C7 with the stub collaborator. -/
theorem find_similar_not_found_and_metadata_witness :
    similarStubResponse.search_type = "similar" ∧ similarStubResponse.used_ai = false ∧
    findSimilarTrials "NCT00000001" 1 5 false stubES =
      .error { status_code := 404, detail := "Reference trial NCT00000001 not found" } := by
  have h := find_similar_not_found_and_metadata "NCT00000001" 1 5 stubES
  have h2 := h.2 similarStubResponse (by rfl)
  exact ⟨h2.1, h2.2, h.1⟩

/-- Unfolding equation for add_to_cache. -/
theorem add_to_cache_eq {α β : Type} [DecidableEq α] (cache : List (α × β × ℚ)) (key : α)
    (entities : β) (now : ℚ) :
    add_to_cache cache key entities now =
      dictSet (if cache_max_size ≤ cache.length then cache.drop 1 else cache) key
        (entities, now) := rfl

/-- In a store with distinct keys, find locates exactly the entry of the key. -/
theorem find_entry_of_nodup {α β : Type} [DecidableEq α] :
    ∀ (cache : List (α × β)) (key : α) (value : β),
      (dictKeys cache).Nodup → (key, value) ∈ cache →
      cache.find? (fun entry => decide (entry.1 = key)) = some (key, value)
  | [], _, _, _, hmem => absurd hmem (List.not_mem_nil _)
  | head :: tail, key, value, hnd, hmem => by
      rw [dictKeys, List.map_cons, List.nodup_cons] at hnd
      rcases List.mem_cons.mp hmem with heq | htail
      · subst heq
        exact List.find?_cons_of_pos _ (by simp)
      · have hkey : key ∈ List.map Prod.fst tail := List.mem_map_of_mem Prod.fst htail
        have hne : ¬ (head.1 = key) := fun h => hnd.1 (h ▸ hkey)
        rw [List.find?_cons_of_neg _ (by simpa using hne)]
        exact find_entry_of_nodup tail key value hnd.2 htail

/-- Deleting a key from a store with distinct keys removes it from the keys. -/
theorem not_mem_dictKeys_dictDelete {α β : Type} [DecidableEq α] :
    ∀ (cache : List (α × β)) (key : α), (dictKeys cache).Nodup →
      key ∉ dictKeys (dictDelete cache key)
  | [], key, _ => by simp [dictDelete, dictKeys]
  | (k0, v0) :: tail, key, hnd => by
      rw [dictKeys, List.map_cons, List.nodup_cons] at hnd
      by_cases hk : k0 = key
      · rw [dictDelete, List.eraseP_cons_of_pos (by simp [hk])]
        subst hk
        exact hnd.1
      · rw [dictDelete, List.eraseP_cons_of_neg (by simp [hk])]
        intro hmem
        rw [dictKeys, List.map_cons, List.mem_cons] at hmem
        rcases hmem with h' | h'
        · exact hk h'.symm
        · exact not_mem_dictKeys_dictDelete tail key hnd.2 h'

/-- Deleting a present key shortens the store by exactly one entry. -/
theorem length_dictDelete_add_one {α β : Type} [DecidableEq α] :
    ∀ (cache : List (α × β)) (key : α), key ∈ dictKeys cache →
      (dictDelete cache key).length + 1 = cache.length
  | [], _, h => absurd h (by simp [dictKeys])
  | (k0, v0) :: tail, key, h => by
      by_cases hk : k0 = key
      · rw [dictDelete, List.eraseP_cons_of_pos (by simp [hk])]
        simp
      · rw [dictDelete, List.eraseP_cons_of_neg (by simp [hk])]
        have hmem : key ∈ dictKeys tail := by
          rw [dictKeys, List.map_cons, List.mem_cons] at h
          rcases h with h' | h'
          · exact absurd h'.symm hk
          · exact h'
        have ih := length_dictDelete_add_one tail key hmem
        simp only [dictDelete] at ih
        simp only [List.length_cons]
        omega

/-- Assignment of an absent key appends the new entry at the end. -/
theorem dictSet_of_not_mem {α β : Type} [DecidableEq α] (cache : List (α × β)) (key : α)
    (value : β) (h : key ∉ dictKeys cache) :
    dictSet cache key value = cache ++ [(key, value)] := by
  rw [dictSet, if_neg h]

/-- Assignment never grows the store by more than one entry. -/
theorem length_dictSet_le {α β : Type} [DecidableEq α] (cache : List (α × β)) (key : α)
    (value : β) : (dictSet cache key value).length ≤ cache.length + 1 := by
  rw [dictSet]
  split
  · rw [List.length_map]
    omega
  · rw [List.length_append]
    simp

/-- The keys of the full witness cache are exactly the first thousand numbers. -/
theorem fullCache_keys : dictKeys fullCache = List.range 1000 := by
  rw [dictKeys, fullCache, List.map_map]
  rw [show Prod.fst ∘ (fun i : Nat => (i, (), (0 : ℚ))) = id from rfl, List.map_id]

/-- Claim C3: the entity cache never exceeds 1000 live entries: a put and a
get both preserve the bound, and a put at capacity with a fresh key first
evicts exactly the first-inserted entry (FIFO order) and then appends the new
entry, leaving the size at exactly 1000. -/
theorem cache_capacity_fifo {α β : Type} [DecidableEq α] (cache : List (α × β × ℚ))
    (key key' : α) (entities : β) (now now' : ℚ)
    (hlen : cache.length ≤ cache_max_size) :
    (add_to_cache cache key entities now).length ≤ cache_max_size ∧
    ((get_from_cache cache key' now').2).length ≤ cache_max_size ∧
    (cache.length = cache_max_size → key ∉ dictKeys cache →
      add_to_cache cache key entities now = cache.drop 1 ++ [(key, entities, now)] ∧
      (add_to_cache cache key entities now).length = cache_max_size) := by
  have hc : cache_max_size = 1000 := rfl
  refine ⟨?_, ?_, fun hfull hnew => ?_⟩
  · rw [add_to_cache_eq]
    rcases le_or_lt cache_max_size cache.length with h | h
    · rw [if_pos h]
      have h1 := length_dictSet_le (cache.drop 1) key (entities, now)
      have h2 : (cache.drop 1).length = cache.length - 1 := List.length_drop 1 cache
      omega
    · rw [if_neg (not_le.mpr h)]
      have h1 := length_dictSet_le cache key (entities, now)
      omega
  · rcases hfind : cache.find? (fun entry => decide (entry.1 = key')) with _ | entry
    · simp only [get_from_cache, hfind]
      exact hlen
    · simp only [get_from_cache, hfind]
      split
      · exact hlen
      · have hsub : (dictDelete cache key').length ≤ cache.length :=
          (List.eraseP_sublist cache).length_le
        show (dictDelete cache key').length ≤ cache_max_size
        omega
  · have hcond : cache_max_size ≤ cache.length := le_of_eq hfull.symm
    have hdropkeys : key ∉ dictKeys (cache.drop 1) := by
      intro hk
      obtain ⟨entry, hent, hfst⟩ := List.mem_map.mp hk
      exact hnew (List.mem_map.mpr ⟨entry, List.drop_subset 1 cache hent, hfst⟩)
    have heq : add_to_cache cache key entities now =
        cache.drop 1 ++ [(key, entities, now)] := by
      rw [add_to_cache_eq, if_pos hcond]
      exact dictSet_of_not_mem _ _ _ hdropkeys
    refine ⟨heq, ?_⟩
    rw [heq, List.length_append, List.length_drop]
    simp only [List.length_singleton]
    omega

/-- Witness for C3: inserting key 1000 into the full thousand-entry cache
drops its first entry and appends the new one, keeping the size at 1000. -/
theorem cache_capacity_fifo_witness :
    add_to_cache fullCache 1000 () 0 = fullCache.drop 1 ++ [(1000, (), 0)] ∧
    (add_to_cache fullCache 1000 () 0).length = cache_max_size := by
  have hlen : fullCache.length = cache_max_size := by
    simp [fullCache, cache_max_size]
  have hnew : (1000 : Nat) ∉ dictKeys fullCache := by
    rw [fullCache_keys]
    simp
  exact (cache_capacity_fifo fullCache 1000 1000 () 0 0 (le_of_eq hlen)).2.2 hlen hnew

/-- Claim C10: a put whose key is already present, performed at capacity,
still evicts the first-inserted entry before overwriting the existing key in
place, so the oldest key stops being live and the cache is left at 999
entries. -/
theorem cache_replacement_still_evicts {α β : Type} [DecidableEq α]
    (oldest : α × β × ℚ) (rest : List (α × β × ℚ)) (key : α) (entities : β) (now : ℚ)
    (hlen : (oldest :: rest).length = cache_max_size)
    (hnd : (dictKeys (oldest :: rest)).Nodup)
    (hkey : key ∈ dictKeys rest) :
    add_to_cache (oldest :: rest) key entities now =
      rest.map (fun entry => if entry.1 = key then (key, entities, now) else entry) ∧
    (add_to_cache (oldest :: rest) key entities now).length = cache_max_size - 1 ∧
    oldest.1 ∉ dictKeys (add_to_cache (oldest :: rest) key entities now) := by
  have hcond : cache_max_size ≤ (oldest :: rest).length := le_of_eq hlen.symm
  have heq : add_to_cache (oldest :: rest) key entities now =
      rest.map (fun entry => if entry.1 = key then (key, entities, now) else entry) := by
    rw [add_to_cache_eq, if_pos hcond]
    show dictSet rest key (entities, now) = _
    rw [dictSet, if_pos hkey]
  refine ⟨heq, ?_, ?_⟩
  · rw [heq, List.length_map]
    have h1 : (oldest :: rest).length = rest.length + 1 := List.length_cons oldest rest
    omega
  · rw [heq, dictKeys, List.map_map]
    have hmapped : List.map
        (Prod.fst ∘ fun entry => if entry.1 = key then (key, entities, now) else entry)
        rest = List.map Prod.fst rest := by
      apply List.map_congr_left
      intro entry _
      by_cases he : entry.1 = key <;> simp [he, Function.comp]
    rw [hmapped]
    rw [dictKeys, List.map_cons, List.nodup_cons] at hnd
    exact hnd.1

set_option maxRecDepth 10000 in
/-- Witness for C10: overwriting the live key 5 in the full cache still
evicts the first-inserted key 0 and leaves 999 entries. -/
theorem cache_replacement_still_evicts_witness :
    (add_to_cache fullCache 5 () 1).length = cache_max_size - 1 ∧
    (0 : Nat) ∉ dictKeys (add_to_cache fullCache 5 () 1) := by
  have hfc : fullCache = ((0 : Nat), (), (0 : ℚ)) :: fullCache.tail := rfl
  have hnd : (dictKeys fullCache).Nodup := by
    rw [fullCache_keys]
    exact List.nodup_range 1000
  have hlen : fullCache.length = cache_max_size := by
    simp [fullCache, cache_max_size]
  have hkey : (5 : Nat) ∈ dictKeys fullCache.tail := by decide
  have h := cache_replacement_still_evicts ((0 : Nat), (), (0 : ℚ)) fullCache.tail 5 () 1
    (by rw [← hfc]; exact hlen) (by rw [← hfc]; exact hnd) hkey
  rw [hfc]
  exact ⟨h.2.1, h.2.2⟩

/-- Claim C4: a cache get for an entry aged 600 seconds or more behaves as a
miss, removes the stale entry from the store, and a subsequent put for the
same key succeeds as a fresh insert at the end; a get for an entry younger
than 600 seconds returns the stored entities. -/
theorem cache_ttl_lazy_expiry {α β : Type} [DecidableEq α] (cache : List (α × β × ℚ))
    (key : α) (entities fresh : β) (timestamp now later : ℚ)
    (hlen : cache.length ≤ cache_max_size)
    (hnd : (dictKeys cache).Nodup)
    (hmem : (key, entities, timestamp) ∈ cache) :
    (cache_ttl ≤ now - timestamp →
      get_from_cache cache key now = (none, dictDelete cache key) ∧
      key ∉ dictKeys (dictDelete cache key) ∧
      add_to_cache (dictDelete cache key) key fresh later =
        dictDelete cache key ++ [(key, fresh, later)]) ∧
    (now - timestamp < cache_ttl →
      get_from_cache cache key now = (some entities, cache)) := by
  have hc : cache_max_size = 1000 := rfl
  have hfind := find_entry_of_nodup cache key (entities, timestamp) hnd hmem
  have hkeys : key ∈ dictKeys cache := List.mem_map_of_mem Prod.fst hmem
  constructor
  · intro hexp
    have hget : get_from_cache cache key now = (none, dictDelete cache key) := by
      simp only [get_from_cache, hfind]
      rw [if_neg (not_lt.mpr hexp)]
    have hnotmem := not_mem_dictKeys_dictDelete cache key hnd
    refine ⟨hget, hnotmem, ?_⟩
    have hdel : (dictDelete cache key).length + 1 = cache.length :=
      length_dictDelete_add_one cache key hkeys
    rw [add_to_cache_eq, if_neg (by omega)]
    exact dictSet_of_not_mem _ _ _ hnotmem
  · intro hfresh
    simp only [get_from_cache, hfind]
    rw [if_pos hfresh]

/-- Witness for C4 on a one-entry cache: an access at exactly 600 seconds is
a miss that empties the store, the re-insert lands as a fresh entry, and an
access at 599 seconds still returns the stored value. -/
theorem cache_ttl_lazy_expiry_witness :
    get_from_cache [((1 : Nat), (), (0 : ℚ))] 1 600 = (none, ([] : List (Nat × Unit × ℚ))) ∧
    add_to_cache ([] : List (Nat × Unit × ℚ)) 1 () 601 = [(1, (), 601)] ∧
    get_from_cache [((1 : Nat), (), (0 : ℚ))] 1 599 = (some (), [(1, (), 0)]) := by
  have h := cache_ttl_lazy_expiry [((1 : Nat), (), (0 : ℚ))] 1 () () 0 600 601
    (by norm_num [cache_max_size]) (by simp [dictKeys]) (by simp)
  have h2 := cache_ttl_lazy_expiry [((1 : Nat), (), (0 : ℚ))] 1 () () 0 599 601
    (by norm_num [cache_max_size]) (by simp [dictKeys]) (by simp)
  have h1 := h.1 (by norm_num [cache_ttl])
  exact ⟨h1.1, h1.2.2, h2.2 (by norm_num [cache_ttl])⟩

/-- Claim C8: the compiled query of every strategy carries offset
(page - 1) * page_size, and total_pages is the ceiling of total over
page_size, computed as (total + page_size - 1) / page_size: it covers all
results and is the least page count doing so; 45 results at page size 10 give
5 pages, zero results give 0 pages, and page 3 at page size 20 gives offset
40. -/
theorem pagination_offset_and_total_pages (page page_size total : Nat)
    (hpage : 1 ≤ page) (h1 : 1 ≤ page_size) (h100 : page_size ≤ 100) :
    (∀ (query : String) (extracted_entities : Option ExtractedEntities),
      ((selectStrategyAndQuery query page_size (fromOffset page page_size)
          extracted_entities).2).from_ = (page - 1) * page_size) ∧
    total ≤ totalPages total page_size * page_size ∧
    (∀ pages : Nat, total ≤ pages * page_size → totalPages total page_size ≤ pages) ∧
    totalPages 45 10 = 5 ∧
    totalPages 0 page_size = 0 ∧
    fromOffset 3 20 = 40 := by
  refine ⟨?_, ?_, ?_, by norm_num [totalPages], ?_, by norm_num [fromOffset]⟩
  · intro query ext
    rcases ext with _ | e
    · rfl
    · by_cases h : (8 : ℚ)/10 ≤ e.confidence.getD 0
      · simp [selectStrategyAndQuery, h, build_intelligent_query, fromOffset]
      · simp [selectStrategyAndQuery, h, build_hybrid_query, fromOffset]
  · have hdm := Nat.div_add_mod (total + page_size - 1) page_size
    have hmod : (total + page_size - 1) % page_size < page_size := Nat.mod_lt _ h1
    rw [totalPages, Nat.mul_comm]
    generalize hq : page_size * ((total + page_size - 1) / page_size) = m at hdm ⊢
    omega
  · intro pages hcover
    by_contra hgt
    push_neg at hgt
    rw [totalPages] at hgt
    have hmul := (Nat.le_div_iff_mul_le h1).mp hgt
    rw [Nat.succ_mul] at hmul
    generalize hp : pages * page_size = m at hmul hcover
    omega
  · rw [totalPages]
    apply Nat.div_eq_of_lt
    omega

/-- Witness for C8 at page 3, page size 20 and 45 total results. -/
theorem pagination_offset_and_total_pages_witness :
    totalPages 45 10 = 5 ∧ totalPages 0 20 = 0 ∧ fromOffset 3 20 = 40 := by
  have h := pagination_offset_and_total_pages 3 20 45 (by norm_num) (by norm_num)
    (by norm_num)
  exact ⟨h.2.2.2.1, h.2.2.2.2.1, h.2.2.2.2.2⟩
